import Mathlib

/-!
Shallow embedding of `airflow/providers/amazon/aws/operators/batch.py`
(`BatchOperator`): `execute`, `submit_job`, `monitor_job`, `on_kill` and
the `operator_extra_links` property, together with a trace of the external
calls and log records each method performs.

External collaborators (the boto3 client behind `BatchClientHook`, a
caller-supplied waiters object) are modelled as an `Env` record of
prescribed responses; each method threads the operator state explicitly
and returns the list of observable events it emitted plus an
`Except`-valued outcome standing for Python's raised exceptions.
-/

namespace BatchOp

/-- Exceptions that can escape the embedded methods.  `airflowException`
is Airflow's `AirflowException` carrying its message; `keyError` is a
Python `KeyError` on a missing dict key; `typeError` is a Python
`TypeError`; `jobFailed` models the `AirflowException` raised by the
hook's final success check, carrying the job id and the service-reported
terminal status; `clientError` is a botocore-level client exception. -/
inductive BErr where
  | airflowException (msg : String)
  | keyError (key : String)
  | typeError (msg : String)
  | jobFailed (jobId : String) (status : String)
  | clientError (msg : String)
  deriving DecidableEq, Repr

/-- Observable events: remote calls, link persistence, log records. -/
inductive Event where
  | logInfo
  | logWarning
  | logError
  | submitCall
  | describeCall
  | waitersWaitCall
  | hookWaitCall
  | awslogsCall
  | checkSuccessCall
  | persistJobDetailsLink
  | persistJobDefinitionLink
  | persistJobQueueLink
  | persistCloudWatchLink
  | terminateCall (jobId : Option String) (reason : String)
  deriving DecidableEq, Repr

/-- The response dict of `client.submit_job`; the `jobId` key may be
absent, modelled as `none`. -/
structure SubmitResponse where
  jobId : Option String
  deriving DecidableEq, Repr

/-- The describe response used at the start of `monitor_job`; the
`jobDefinition` and `jobQueue` keys may be absent (the dict lookups then
raise `KeyError`). -/
structure DescribeResponse where
  jobDefinition : Option String
  jobQueue : Option String
  deriving DecidableEq, Repr

/-- CloudWatch log locator as returned by `get_job_awslogs_info`. -/
structure AwsLogs where
  awslogs_group : String
  awslogs_stream_name : String
  awslogs_region : String
  deriving DecidableEq, Repr

/-- Prescribed behaviour of the external collaborators for one
invocation: the remote submit call (raising with a message or returning a
response dict), the describe call backing the advisory ARN lookup, the
two wait strategies, the best-effort log-locator lookup, the terminal
status the service reports to the final success check, and the terminate
call's acknowledgment. -/
structure Env where
  submit_resp : Except String SubmitResponse
  describe_resp : Except BErr DescribeResponse
  waiters_wait : Except BErr Unit
  hook_wait : Except BErr Unit
  awslogs : Option AwsLogs
  job_status : String
  terminate_resp : Except String String

/-- The operator's own mutable state and configuration.  `waiters` is the
truthiness of the caller-supplied waiters object (`none` when polling is
used); dict-valued fields are association lists. -/
structure BatchOperator where
  job_id : Option String
  job_name : String
  job_definition : String
  job_queue : String
  overrides : List (String × String)
  array_properties : List (String × String)
  parameters : List (String × String)
  tags : List (String × String)
  waiters : Bool
  wait_for_completion : Bool
  deriving DecidableEq, Repr

/-- Python truthiness of the optional `job_id` string: `None` and the
empty string are falsy. -/
def truthy : Option String → Bool
  | none => false
  | some s => !s.isEmpty

/-- Modelled from the spec: `BatchClientHook.check_job_success` is not
under `src/`.  Per the spec, the final classification check re-confirms
the terminal SUCCEEDED state against the remote service and fails with a
`JobFailedError` carrying the service-reported status if the job did not
succeed. -/
def check_job_success (env : Env) (jobId : String) : Except BErr Unit :=
  if env.job_status = "SUCCEEDED" then Except.ok ()
  else Except.error (BErr.jobFailed jobId env.job_status)

/-- `BatchOperator.submit_job` (source lines 180-219): two informational
log records, exactly one `client.submit_job` call; a raising call is
logged and wrapped as `AirflowException(e)`; on a response the `jobId`
lookup is outside the try-block, so a missing key raises a bare
`KeyError` with the state unchanged; otherwise `self.job_id` is assigned
and the job-details link is persisted. -/
def submit_job (op : BatchOperator) (env : Env) :
    BatchOperator × List Event × Except BErr Unit :=
  let tr := [Event.logInfo, Event.logInfo, Event.submitCall]
  match env.submit_resp with
  | Except.error e =>
      (op, tr ++ [Event.logError], Except.error (BErr.airflowException e))
  | Except.ok response =>
      match response.jobId with
      | none => (op, tr, Except.error (BErr.keyError "jobId"))
      | some jid =>
          ({ op with job_id := some jid },
           tr ++ [Event.logInfo, Event.persistJobDetailsLink],
           Except.ok ())

/-- `BatchOperator.monitor_job` (source lines 221-278): precondition
check on a falsy `job_id`; then a try-block fetching the describe
response (`get_job_description` is a hook call, modelled by
`env.describe_resp`) whose `jobDefinition` and `jobQueue` lookups raise
`KeyError` when absent — caught and logged as a warning, with the two
link persists in the `else` branch; then exactly one wait strategy
(`self.waiters.wait_for_job` when a waiters object is configured,
otherwise `self.hook.wait_for_job`, both external collaborators modelled
by the corresponding `Env` field); then the best-effort
`get_job_awslogs_info` lookup (modelled from the spec: the hook is not
under `src/`; per the spec it yields an optional log locator surfaced to
the link-persistence collaborator); finally `check_job_success` and a
success log record. -/
def monitor_job (op : BatchOperator) (env : Env) :
    List Event × Except BErr Unit :=
  if !(truthy op.job_id) then
    ([], Except.error (BErr.airflowException "AWS Batch job - job_id was not found"))
  else
    let jobId := op.job_id.getD ""
    match env.describe_resp with
    | Except.error e => ([Event.describeCall], Except.error e)
    | Except.ok job_desc =>
        let tr1 :=
          match job_desc.jobDefinition, job_desc.jobQueue with
          | some _, some _ =>
              [Event.describeCall, Event.logInfo,
               Event.persistJobDefinitionLink, Event.persistJobQueueLink]
          | _, _ => [Event.describeCall, Event.logWarning]
        let waitStep : List Event × Except BErr Unit :=
          if op.waiters then ([Event.waitersWaitCall], env.waiters_wait)
          else ([Event.hookWaitCall], env.hook_wait)
        match waitStep with
        | (trW, Except.error e) => (tr1 ++ trW, Except.error e)
        | (trW, Except.ok _) =>
            let tr2 := tr1 ++ trW ++ [Event.awslogsCall]
            let tr3 :=
              match env.awslogs with
              | some _ => tr2 ++ [Event.logInfo, Event.persistCloudWatchLink]
              | none => tr2
            match check_job_success env jobId with
            | Except.error e =>
                (tr3 ++ [Event.checkSuccessCall], Except.error e)
            | Except.ok _ =>
                (tr3 ++ [Event.checkSuccessCall, Event.logInfo], Except.ok ())

/-- `BatchOperator.execute` (source lines 163-174): `submit_job` first,
then `monitor_job` only when `wait_for_completion` is set, returning
`self.job_id`. -/
def execute (op : BatchOperator) (env : Env) :
    BatchOperator × List Event × Except BErr (Option String) :=
  match submit_job op env with
  | (op1, t1, Except.error e) => (op1, t1, Except.error e)
  | (op1, t1, Except.ok _) =>
      if op1.wait_for_completion then
        match monitor_job op1 env with
        | (t2, Except.error e) => (op1, t1 ++ t2, Except.error e)
        | (t2, Except.ok _) => (op1, t1 ++ t2, Except.ok op1.job_id)
      else
        (op1, t1, Except.ok op1.job_id)

/-- `BatchOperator.on_kill` (source lines 176-178): one
`client.terminate_job` call with the current `job_id` — there is no
precondition check — then a log record of the acknowledgment; a raising
client call propagates as a botocore-level exception. -/
def on_kill (op : BatchOperator) (env : Env) :
    List Event × Except BErr Unit :=
  let call := Event.terminateCall op.job_id "Task killed by the user"
  match env.terminate_resp with
  | Except.error e => ([call], Except.error (BErr.clientError e))
  | Except.ok _ => ([call, Event.logInfo], Except.ok ())

/-- The extra links the operator exposes for UI consumption. -/
inductive Link where
  | batchJobDetails
  | batchJobDefinition
  | batchJobQueue
  | cloudWatchEvents
  deriving DecidableEq, Repr

/-- `BatchOperator.operator_extra_links` (source lines 114-123): starts
from the job-details link; when `wait_for_completion` is set the source
calls `op_extra_links.extend(BatchJobDefinitionLink(), BatchJobQueueLink())`
— `list.extend` accepts exactly one iterable, so this call raises
`TypeError`; otherwise the CloudWatch link is appended when
`array_properties` is empty (falsy) and the tuple is returned. -/
def operator_extra_links (op : BatchOperator) : Except BErr (List Link) :=
  let op_extra_links := [Link.batchJobDetails]
  if op.wait_for_completion then
    Except.error (BErr.typeError "extend() takes exactly one argument (2 given)")
  else
    let op_extra_links :=
      if op.array_properties.isEmpty then op_extra_links ++ [Link.cloudWatchEvents]
      else op_extra_links
    Except.ok op_extra_links

/-- Events belonging to the monitoring phase (remote waits, the advisory
describe, the log-locator lookup and the final success check). -/
def isMonitorEvent : Event → Bool
  | Event.describeCall => true
  | Event.waitersWaitCall => true
  | Event.hookWaitCall => true
  | Event.awslogsCall => true
  | Event.checkSuccessCall => true
  | _ => false

end BatchOp

namespace BatchOp

/-- Concrete operator state immediately after construction: no job id. -/
def opDefault : BatchOperator :=
  { job_id := none, job_name := "jn", job_definition := "jd", job_queue := "jq",
    overrides := [], array_properties := [], parameters := [], tags := [],
    waiters := false, wait_for_completion := true }

/-- Concrete operator state with a job id set. -/
def opWithId : BatchOperator := { opDefault with job_id := some "job-1" }

/-- Environment where every collaborator behaves nominally. -/
def envOk : Env :=
  { submit_resp := Except.ok { jobId := some "job-1" },
    describe_resp := Except.ok { jobDefinition := some "jd-arn", jobQueue := some "jq-arn" },
    waiters_wait := Except.ok (), hook_wait := Except.ok (),
    awslogs := none, job_status := "SUCCEEDED", terminate_resp := Except.ok "ack" }

/-- C2: with no job handle set, Monitor raises the precondition error
before issuing any remote call (the event trace is empty). -/
theorem monitor_before_submit_precondition (op : BatchOperator) (env : Env)
    (h : op.job_id = none) :
    monitor_job op env =
      ([], Except.error (BErr.airflowException "AWS Batch job - job_id was not found")) := by
  simp [monitor_job, truthy, h]

/-- Witness for C2 at a freshly constructed operator. -/
theorem monitor_before_submit_precondition_witness :
    opDefault.job_id = none ∧
      monitor_job opDefault envOk =
        ([], Except.error (BErr.airflowException "AWS Batch job - job_id was not found")) :=
  ⟨rfl, monitor_before_submit_precondition opDefault envOk rfl⟩

/-- C9: with `wait_for_completion` set, reading `operator_extra_links`
raises `TypeError`, because `list.extend` is called with two arguments. -/
theorem extra_links_type_error (op : BatchOperator)
    (h : op.wait_for_completion = true) :
    operator_extra_links op =
      Except.error (BErr.typeError "extend() takes exactly one argument (2 given)") := by
  simp [operator_extra_links, h]

/-- Witness for C9. -/
theorem extra_links_type_error_witness :
    opDefault.wait_for_completion = true ∧
      operator_extra_links opDefault =
        Except.error (BErr.typeError "extend() takes exactly one argument (2 given)") :=
  ⟨rfl, extra_links_type_error opDefault rfl⟩

/-- C10: a successful submit response lacking the `jobId` key raises a
bare `KeyError` (not the wrapped submission failure) with the operator
state, in particular the job handle field, unchanged. -/
theorem submit_missing_jobid_keyerror (op : BatchOperator) (env : Env)
    (resp : SubmitResponse) (h1 : env.submit_resp = Except.ok resp)
    (h2 : resp.jobId = none) :
    (submit_job op env).1 = op ∧
      (submit_job op env).2.2 = Except.error (BErr.keyError "jobId") := by
  simp [submit_job, h1, h2]

/-- Environment whose submit response lacks the `jobId` key. -/
def envNoJobId : Env := { envOk with submit_resp := Except.ok { jobId := none } }

/-- Witness for C10. -/
theorem submit_missing_jobid_keyerror_witness :
    envNoJobId.submit_resp = Except.ok { jobId := none } ∧
      (submit_job opDefault envNoJobId).1 = opDefault ∧
      (submit_job opDefault envNoJobId).2.2 = Except.error (BErr.keyError "jobId") :=
  ⟨rfl, submit_missing_jobid_keyerror opDefault envNoJobId { jobId := none } rfl rfl⟩

/-- C3: a failing remote submit call is attempted exactly once per
invocation and wrapped as `AirflowException`; two induced failures in a
row each produce exactly one submit call and one wrapped error. -/
theorem submit_single_call_wraps_failure (op : BatchOperator)
    (env1 env2 : Env) (e1 e2 : String)
    (h1 : env1.submit_resp = Except.error e1)
    (h2 : env2.submit_resp = Except.error e2) :
    ((submit_job op env1).2.1.count Event.submitCall = 1 ∧
      (submit_job op env1).2.2 = Except.error (BErr.airflowException e1)) ∧
    ((submit_job (submit_job op env1).1 env2).2.1.count Event.submitCall = 1 ∧
      (submit_job (submit_job op env1).1 env2).2.2 =
        Except.error (BErr.airflowException e2)) := by
  simp [submit_job, h1, h2]

/-- Environment whose submit call raises. -/
def envSubmitFail : Env := { envOk with submit_resp := Except.error "boom" }

/-- Witness for C3. -/
theorem submit_single_call_wraps_failure_witness :
    envSubmitFail.submit_resp = Except.error "boom" ∧
      ((submit_job opDefault envSubmitFail).2.1.count Event.submitCall = 1 ∧
        (submit_job opDefault envSubmitFail).2.2 =
          Except.error (BErr.airflowException "boom")) ∧
      ((submit_job (submit_job opDefault envSubmitFail).1 envSubmitFail).2.1.count
          Event.submitCall = 1 ∧
        (submit_job (submit_job opDefault envSubmitFail).1 envSubmitFail).2.2 =
          Except.error (BErr.airflowException "boom")) :=
  ⟨rfl, submit_single_call_wraps_failure opDefault envSubmitFail envSubmitFail
    "boom" "boom" rfl rfl⟩

/-- C8: on a successful submit the only mutation is storing the returned
job identifier into `job_id`; on any failure the state is unchanged. -/
theorem submit_only_mutates_job_id (op : BatchOperator) (env : Env) :
    (∀ e, env.submit_resp = Except.error e → (submit_job op env).1 = op) ∧
    (∀ resp, env.submit_resp = Except.ok resp → resp.jobId = none →
      (submit_job op env).1 = op) ∧
    (∀ resp jid, env.submit_resp = Except.ok resp → resp.jobId = some jid →
      (submit_job op env).1 = { op with job_id := some jid } ∧
        (submit_job op env).2.2 = Except.ok ()) := by
  refine ⟨?_, ?_, ?_⟩
  · intro e he; simp [submit_job, he]
  · intro resp hr hn; simp [submit_job, hr, hn]
  · intro resp jid hr hj; simp [submit_job, hr, hj]

end BatchOp

namespace BatchOp

/-- The outcome of `monitor_job` once the precondition holds and the
describe call returns: the active wait strategy's result, followed by the
final success check; the advisory describe response plays no part. -/
theorem monitor_result_char (op : BatchOperator) (env : Env)
    (d : DescribeResponse)
    (hid : truthy op.job_id = true)
    (hd : env.describe_resp = Except.ok d) :
    (monitor_job op env).2 =
      (match (if op.waiters then env.waiters_wait else env.hook_wait) with
        | Except.error e => Except.error e
        | Except.ok _ => check_job_success env (op.job_id.getD "")) := by
  obtain ⟨df, dq⟩ := d
  cases hb : op.waiters <;> cases hw : env.hook_wait <;>
    cases hww : env.waiters_wait <;>
    cases df <;> cases dq <;> cases ha : env.awslogs <;>
    cases hc : check_job_success env (op.job_id.getD "") <;>
    simp [monitor_job, hid, hd, hb, hw, hww, ha, hc]

/-- Once the wait strategy reports completion, the final success check is
reached: its call event is in the trace. -/
theorem monitor_check_in_trace (op : BatchOperator) (env : Env)
    (d : DescribeResponse)
    (hid : truthy op.job_id = true)
    (hd : env.describe_resp = Except.ok d)
    (hw : (if op.waiters then env.waiters_wait else env.hook_wait) = Except.ok ()) :
    Event.checkSuccessCall ∈ (monitor_job op env).1 := by
  obtain ⟨df, dq⟩ := d
  cases hb : op.waiters <;> rw [hb] at hw <;> simp at hw <;>
    cases df <;> cases dq <;> cases ha : env.awslogs <;>
    cases hc : check_job_success env (op.job_id.getD "") <;>
    simp [monitor_job, hid, hd, hb, hw, ha, hc]

/-- C1: after the active wait strategy reports completion, Monitor runs
the final classification check; when the service-reported terminal status
is not SUCCEEDED, Monitor fails with the `JobFailedError` carrying that
status even though the wait phase was satisfied. -/
theorem monitor_final_check_failure (op : BatchOperator) (env : Env)
    (d : DescribeResponse)
    (hid : truthy op.job_id = true)
    (hd : env.describe_resp = Except.ok d)
    (hw : (if op.waiters then env.waiters_wait else env.hook_wait) = Except.ok ())
    (hs : env.job_status ≠ "SUCCEEDED") :
    (monitor_job op env).2 =
        Except.error (BErr.jobFailed (op.job_id.getD "") env.job_status) ∧
      Event.checkSuccessCall ∈ (monitor_job op env).1 := by
  have h := monitor_result_char op env d hid hd
  rw [hw] at h
  simp only [check_job_success, if_neg hs] at h
  exact ⟨h, monitor_check_in_trace op env d hid hd hw⟩

/-- Environment where the status sequence ends in FAILED: the wait phase
(SUCCEEDED or FAILED) is satisfied, the final status is FAILED. -/
def envFailed : Env := { envOk with job_status := "FAILED" }

/-- Witness for C1 on a FAILED terminal status. -/
theorem monitor_final_check_failure_witness :
    truthy opWithId.job_id = true ∧
      envFailed.describe_resp =
        Except.ok { jobDefinition := some "jd-arn", jobQueue := some "jq-arn" } ∧
      (if opWithId.waiters then envFailed.waiters_wait else envFailed.hook_wait) =
        Except.ok () ∧
      envFailed.job_status ≠ "SUCCEEDED" ∧
      (monitor_job opWithId envFailed).2 =
        Except.error (BErr.jobFailed "job-1" "FAILED") ∧
      Event.checkSuccessCall ∈ (monitor_job opWithId envFailed).1 := by
  refine ⟨rfl, rfl, rfl, by decide, ?_⟩
  have h := monitor_final_check_failure opWithId envFailed
    { jobDefinition := some "jd-arn", jobQueue := some "jq-arn" }
    rfl rfl rfl (by decide)
  exact h

end BatchOp

namespace BatchOp

/-- C6: a describe response missing the expected ARN fields makes Monitor
log a warning and continue to the wait phase; the advisory failure is
never escalated — the outcome of Monitor is the same whatever describe
response is substituted. -/
theorem monitor_advisory_lookup_nonfatal (op : BatchOperator) (env : Env)
    (d : DescribeResponse)
    (hid : truthy op.job_id = true)
    (hd : env.describe_resp = Except.ok d)
    (hmiss : d.jobDefinition = none ∨ d.jobQueue = none) :
    Event.logWarning ∈ (monitor_job op env).1 ∧
      (if op.waiters then Event.waitersWaitCall else Event.hookWaitCall) ∈
        (monitor_job op env).1 ∧
      ∀ d2, (monitor_job op { env with describe_resp := Except.ok d2 }).2 =
        (monitor_job op env).2 := by
  obtain ⟨df, dq⟩ := d
  refine ⟨?_, ?_, ?_⟩
  · cases hb : op.waiters <;> cases hw : env.hook_wait <;>
      cases hww : env.waiters_wait <;>
      cases df <;> cases dq <;> cases ha : env.awslogs <;>
      cases hc : check_job_success env (op.job_id.getD "") <;>
      simp_all [monitor_job]
  · cases hb : op.waiters <;> cases hw : env.hook_wait <;>
      cases hww : env.waiters_wait <;>
      cases df <;> cases dq <;> cases ha : env.awslogs <;>
      cases hc : check_job_success env (op.job_id.getD "") <;>
      simp [monitor_job, hid, hd, hb, hw, hww, ha, hc]
  · intro d2
    have h1 := monitor_result_char op env ⟨df, dq⟩ hid hd
    have h2 := monitor_result_char op { env with describe_resp := Except.ok d2 }
      d2 hid rfl
    rw [h1, h2]
    rfl

/-- Environment whose describe response is missing both ARN fields. -/
def envNoArns : Env :=
  { envOk with describe_resp := Except.ok { jobDefinition := none, jobQueue := none } }

/-- Witness for C6. -/
theorem monitor_advisory_lookup_nonfatal_witness :
    truthy opWithId.job_id = true ∧
      envNoArns.describe_resp =
        Except.ok { jobDefinition := none, jobQueue := none } ∧
      Event.logWarning ∈ (monitor_job opWithId envNoArns).1 ∧
      (if opWithId.waiters then Event.waitersWaitCall else Event.hookWaitCall) ∈
        (monitor_job opWithId envNoArns).1 ∧
      ∀ d2, (monitor_job opWithId { envNoArns with describe_resp := Except.ok d2 }).2 =
        (monitor_job opWithId envNoArns).2 := by
  refine ⟨rfl, rfl, ?_⟩
  exact monitor_advisory_lookup_nonfatal opWithId envNoArns
    { jobDefinition := none, jobQueue := none } rfl rfl (Or.inl rfl)

/-- C7: each Monitor invocation that reaches the wait phase uses exactly
one wait strategy — the caller-supplied waiters object when configured,
otherwise the built-in poller — and never the other. -/
theorem monitor_single_wait_strategy (op : BatchOperator) (env : Env)
    (d : DescribeResponse)
    (hid : truthy op.job_id = true)
    (hd : env.describe_resp = Except.ok d) :
    (op.waiters = true →
      (monitor_job op env).1.count Event.waitersWaitCall = 1 ∧
      (monitor_job op env).1.count Event.hookWaitCall = 0) ∧
    (op.waiters = false →
      (monitor_job op env).1.count Event.hookWaitCall = 1 ∧
      (monitor_job op env).1.count Event.waitersWaitCall = 0) := by
  obtain ⟨df, dq⟩ := d
  constructor <;> intro hb <;>
    cases hw : env.hook_wait <;> cases hww : env.waiters_wait <;>
    cases df <;> cases dq <;> cases ha : env.awslogs <;>
    cases hc : check_job_success env (op.job_id.getD "") <;>
    simp [monitor_job, hid, hd, hb, hw, hww, ha, hc, List.count_cons, List.count_nil]

/-- Witness for C7 in the polling configuration. -/
theorem monitor_single_wait_strategy_witness :
    truthy opWithId.job_id = true ∧ opWithId.waiters = false ∧
      (monitor_job opWithId envOk).1.count Event.hookWaitCall = 1 ∧
      (monitor_job opWithId envOk).1.count Event.waitersWaitCall = 0 := by
  refine ⟨rfl, rfl, ?_⟩
  exact (monitor_single_wait_strategy opWithId envOk
    { jobDefinition := some "jd-arn", jobQueue := some "jq-arn" } rfl rfl).2 rfl

/-- Predicate picking out terminate calls in a trace. -/
def isTerminate : Event → Bool
  | Event.terminateCall _ _ => true
  | _ => false

/-- C5 counterexample: with no job handle set, `on_kill` does not fail
with the precondition error — it issues the terminate call to the remote
service carrying the unset identifier, and returns normally. -/
theorem on_kill_no_precondition_counterexample :
    Event.terminateCall none "Task killed by the user" ∈ (on_kill opDefault envOk).1 ∧
      (on_kill opDefault envOk).2 = Except.ok () := by
  constructor
  · simp [on_kill, opDefault, envOk]
  · simp [on_kill, opDefault, envOk]

/-- C5 amended: `on_kill` performs no precondition check on the job
handle: for every operator state it issues exactly one terminate call,
carrying whatever `job_id` currently holds (even `none`), and never
raises the precondition `AirflowException`; any failure comes from the
remote client call itself. -/
theorem on_kill_always_terminates (op : BatchOperator) (env : Env) :
    (on_kill op env).1.countP isTerminate = 1 ∧
      (on_kill op env).1.head? =
        some (Event.terminateCall op.job_id "Task killed by the user") ∧
      ∀ msg, (on_kill op env).2 ≠ Except.error (BErr.airflowException msg) := by
  cases ht : env.terminate_resp <;>
    simp [on_kill, ht, isTerminate, List.countP_cons, List.countP_nil]

end BatchOp

namespace BatchOp

/-- The submit phase emits no monitoring event. -/
theorem submit_trace_no_monitor (op : BatchOperator) (env : Env) :
    ∀ ev ∈ (submit_job op env).2.1, isMonitorEvent ev = false := by
  cases hs : env.submit_resp with
  | error e => simp [submit_job, hs, isMonitorEvent]
  | ok r =>
      cases hr : r.jobId <;> simp [submit_job, hs, hr, isMonitorEvent]

/-- The monitoring phase never issues a submit call. -/
theorem monitor_no_submit (op : BatchOperator) (env : Env) :
    Event.submitCall ∉ (monitor_job op env).1 := by
  by_cases hid : truthy op.job_id
  · cases hd : env.describe_resp with
    | error e => simp [monitor_job, hid, hd]
    | ok d =>
        obtain ⟨df, dq⟩ := d
        cases hb : op.waiters <;> cases hw : env.hook_wait <;>
          cases hww : env.waiters_wait <;>
          cases df <;> cases dq <;> cases ha : env.awslogs <;>
          cases hc : check_job_success env (op.job_id.getD "") <;>
          simp [monitor_job, hid, hd, hb, hw, hww, ha, hc]
  · simp at hid
    simp [monitor_job, hid]

/-- C4: Execute runs Submit first; with `wait_for_completion` unset it
returns the job handle with no monitoring activity at all, and with it
set, Monitor runs after Submit (the trace is the submit trace followed by
the monitor trace, the former free of monitor events, the latter free of
submit calls) and the handle is returned exactly when Monitor completes
successfully. -/
theorem execute_submit_then_monitor (op : BatchOperator) (env : Env) :
    ∃ t2,
      (execute op env).2.1 = (submit_job op env).2.1 ++ t2 ∧
      (∀ ev ∈ (submit_job op env).2.1, isMonitorEvent ev = false) ∧
      Event.submitCall ∉ t2 ∧
      (op.wait_for_completion = false →
        t2 = [] ∧
        ((submit_job op env).2.2 = Except.ok () →
          (execute op env).2.2 = Except.ok (submit_job op env).1.job_id)) ∧
      (op.wait_for_completion = true →
        (submit_job op env).2.2 = Except.ok () →
        t2 = (monitor_job (submit_job op env).1 env).1 ∧
        ((execute op env).2.2 = Except.ok (submit_job op env).1.job_id ↔
          (monitor_job (submit_job op env).1 env).2 = Except.ok ())) := by
  have hnos := submit_trace_no_monitor op env
  cases hs : env.submit_resp with
  | error e =>
      refine ⟨[], ?_⟩
      simp [execute, submit_job, hs] at hnos ⊢
      exact hnos
  | ok r =>
      cases hr : r.jobId with
      | none =>
          refine ⟨[], ?_⟩
          simp [execute, submit_job, hs, hr] at hnos ⊢
          exact hnos
      | some jid =>
          have hsub : submit_job op env =
              ({ op with job_id := some jid },
               [Event.logInfo, Event.logInfo, Event.submitCall,
                Event.logInfo, Event.persistJobDetailsLink],
               Except.ok ()) := by
            simp [submit_job, hs, hr]
          cases hwfc : op.wait_for_completion with
          | false =>
              refine ⟨[], ?_⟩
              simp [execute, hsub, hwfc] at hnos ⊢
              exact hnos
          | true =>
              have hnosub := monitor_no_submit { op with job_id := some jid } env
              rcases hm : monitor_job { op with job_id := some jid } env with ⟨t2m, r2⟩
              refine ⟨t2m, ?_⟩
              rw [hm] at hnosub
              simp only [hwfc] at hm
              cases r2 with
              | error e2 =>
                  simp [execute, hsub, hwfc, hm] at hnos hnosub ⊢
                  exact ⟨hnos, hnosub⟩
              | ok u =>
                  simp [execute, hsub, hwfc, hm] at hnos hnosub ⊢
                  exact ⟨hnos, hnosub⟩

end BatchOp
